import Mathlib

/-!
Shallow embedding of the Piper Alpha training-progress backend
(`backend/app/config.py`, `schemas.py`, `crud.py`, `auth.py`, `main.py`,
`pdf_generator.py`) and proofs about its normalization, statistics,
remark-tier, authentication and authorization logic.

Machine integers are modelled as `Int`/`Nat`; Python floats arising in
`calculate_statistics` are idealized as exact rationals (`ℚ`) with an
explicit round-half-to-even to one decimal, matching Python `round(x, 1)`
on exact values.  Fallible code is modelled with `Except`.
-/

namespace PiperAlpha

/-- Fixed curriculum of 7 chapters, from `config.VALID_CHAPTERS`. -/
def VALID_CHAPTERS : List String :=
  ["Briefing Room",
   "Arrival on Piper Alpha",
   "Maintenance Area",
   "Precursor to Disaster",
   "Explosion Simulation",
   "Escape Aftermath",
   "Debrief"]

/-- Allowed statuses, from `config.VALID_STATUSES`. -/
def VALID_STATUSES : List String := ["Completed", "Pending", "Not Completed"]

/-- Allowed roles, from `config.VALID_ROLES`. -/
def VALID_ROLES : List String := ["Trainee", "Admin"]

/-- Score lower bound, from `config.MIN_SCORE`. -/
def MIN_SCORE : Int := 0

/-- Score upper bound, from `config.MAX_SCORE`. -/
def MAX_SCORE : Int := 10

/-- A chapter score: an integer or the sentinel string "NA"
(`schemas.ChapterData.score : Union[int, str]`). -/
inductive Score where
  | int (n : Int)
  | NA
deriving DecidableEq, Repr

/-- One chapter's performance entry, the dict
`{"chapter": ..., "score": ..., "status": ...}` used throughout
`crud.create_performance_data` and `pdf_generator.calculate_statistics`
(schema `schemas.ChapterData`). -/
structure ChapterEntry where
  chapter : String
  score : Score
  status : String
deriving DecidableEq, Repr

/-- Validity of a score, from `schemas.ChapterData.validate_score`:
an integer in `[MIN_SCORE, MAX_SCORE]` or the string "NA". -/
def valid_score : Score → Bool
  | Score.int n => decide (MIN_SCORE ≤ n ∧ n ≤ MAX_SCORE)
  | Score.NA => true

/-- Chapter sort key, from `crud.create_performance_data`:
`chapter_order = {chapter: idx for idx, chapter in enumerate(VALID_CHAPTERS)}`
consulted with `chapter_order.get(x["chapter"], 999)`. -/
def chapter_order (c : String) : Nat :=
  match VALID_CHAPTERS.findIdx? (fun v => v == c) with
  | some i => i
  | none => 999

/-- Comparison used by the Python stable sort
`complete_chapter_data.sort(key=lambda x: chapter_order.get(x["chapter"], 999))`;
a stable sort by a key is exactly insertion sort with this relation. -/
def entryLe (x y : ChapterEntry) : Prop :=
  chapter_order x.chapter ≤ chapter_order y.chapter

instance : DecidableRel entryLe := fun x y => Nat.decLe _ _

instance : IsTotal ChapterEntry entryLe := ⟨fun x y => Nat.le_total _ _⟩

instance : IsTrans ChapterEntry entryLe := ⟨fun _ _ _ => Nat.le_trans⟩

/-- Synthesized entries for curriculum chapters absent from the submission
(`crud.create_performance_data`, the auto-fill loop appending
`{"chapter": chapter, "score": "NA", "status": "Not Completed"}` for each
`chapter in VALID_CHAPTERS` with `chapter not in submitted_chapters`). -/
def fillMissing (sub : List ChapterEntry) : List ChapterEntry :=
  let submitted := sub.map ChapterEntry.chapter
  (VALID_CHAPTERS.filter (fun c => decide (c ∉ submitted))).map
    (fun c => { chapter := c, score := Score.NA, status := "Not Completed" })

/-- The pure normalization step of `crud.create_performance_data`
(lines 85-100): keep the submitted entries, append one synthesized entry per
missing curriculum chapter, then stably sort by curriculum position. -/
def normalize (sub : List ChapterEntry) : List ChapterEntry :=
  List.insertionSort entryLe (sub ++ fillMissing sub)

/-- Validator from `schemas.PerformanceSubmit.validate_chapters_not_empty`:
rejects an empty chapters list. -/
def validate_chapters_not_empty (v : List ChapterEntry) :
    Except String (List ChapterEntry) :=
  if v.length = 0 then Except.error "At least one chapter must be provided"
  else Except.ok v

/-- The data path of `main.submit_performance` restricted to the chapters
payload: request validation (`schemas.PerformanceSubmit`) runs first, then
`crud.create_performance_data` normalizes; database insertion and the
user-existence lookup are external and not part of this pure pipeline. -/
def submit_performance (chapters : List ChapterEntry) :
    Except String (List ChapterEntry) :=
  match validate_chapters_not_empty chapters with
  | Except.error e => Except.error e
  | Except.ok v => Except.ok (normalize v)

/-- Extracts the integer score of an entry, `none` on the "NA" sentinel;
used to state closed forms about the statistics loop. -/
def scoreInt (ch : ChapterEntry) : Option Int :=
  match ch.score with
  | Score.int n => some n
  | Score.NA => none

/-! ### Statistics and remark engine (`pdf_generator.py`) -/

/-- Round-half-to-even of a rational to an integer, Python's `round(x)` on
exact values. -/
def round_half_even (q : ℚ) : Int :=
  if q - ⌊q⌋ < 1/2 then ⌊q⌋
  else if 1/2 < q - ⌊q⌋ then ⌊q⌋ + 1
  else if ⌊q⌋ % 2 = 0 then ⌊q⌋ else ⌊q⌋ + 1

/-- Python `round(x, 1)` on exact values: round `10*x` half-to-even, then
divide by 10. -/
def round1 (q : ℚ) : ℚ := (round_half_even (10 * q) : ℚ) / 10

/-- The summary of `pdf_generator.calculate_statistics`. -/
structure Stats where
  completed_count : Nat
  total_count : Nat
  average_score : ℚ
  completion_rate : ℚ
deriving DecidableEq, Repr

/-- One iteration of the `for chapter in chapter_data` loop of
`calculate_statistics`: bump `completed_count` when status is "Completed",
and append the integer score to `total_scores` when it is not "NA". -/
def stats_step (acc : Nat × List Int) (ch : ChapterEntry) : Nat × List Int :=
  let acc1 := if ch.status = "Completed" then (acc.1 + 1, acc.2) else acc
  match ch.score with
  | Score.int n => (acc1.1, acc1.2 ++ [n])
  | Score.NA => acc1

/-- `pdf_generator.calculate_statistics`: iterates `stats_step` over the
chapter list, then computes the averages.  `completion_rate` divides by
`len(chapter_data)` with no zero guard, so an empty list raises
`ZeroDivisionError` in Python; that failure is the `Except.error` branch. -/
def calculate_statistics (chapter_data : List ChapterEntry) : Except String Stats :=
  let acc := chapter_data.foldl stats_step (0, [])
  let completed_count := acc.1
  let total_scores := acc.2
  let avg_score : ℚ :=
    if total_scores ≠ [] then (total_scores.sum : ℚ) / (total_scores.length : ℚ)
    else 0
  if chapter_data.length = 0 then
    Except.error "ZeroDivisionError: division by zero"
  else
    Except.ok
      { completed_count := completed_count
        total_count := chapter_data.length
        average_score := round1 avg_score
        completion_rate :=
          round1 (((completed_count : ℚ) / (chapter_data.length : ℚ)) * 100) }

/-- The three remark tiers selected in `pdf_generator.generate_course_report`
(under the REMARKS section); `PartialCompletion` is the middle
(`completed_count > 0`) branch. -/
inductive RemarkTier where
  | FullCompletion
  | PartialCompletion
  | NotStarted
deriving DecidableEq, Repr

/-- The remark-tier branch of `generate_course_report`:
`if stats["completed_count"] == stats["total_count"]` then full completion,
`elif stats["completed_count"] > 0` then partial, `else` not started. -/
def classify_remark (s : Stats) : RemarkTier :=
  if s.completed_count = s.total_count then RemarkTier.FullCompletion
  else if 0 < s.completed_count then RemarkTier.PartialCompletion
  else RemarkTier.NotStarted

/-! ### Identity store, authentication and authorization
(`models.py`, `auth.py`, `main.py`) -/

/-- A row of the `users` table (`models.User`). -/
structure User where
  email : String
  hashed_password : String
  role : String
  trainee_name : String
deriving DecidableEq, Repr

/-- Modelled from the spec: `auth.get_password_hash` delegates to passlib's
bcrypt `CryptContext`, an external library not under src/; per spec section
4.1 it is a salted hash whose verification succeeds exactly on the original
password, modelled here as an injective tagged encoding. -/
def get_password_hash (password : String) : String :=
  String.append "$2b$12$" password

/-- Modelled from the spec: `auth.verify_password` delegates to passlib's
bcrypt verify, an external library not under src/; per spec section 4.1 it
re-derives the hash and compares, succeeding exactly when the password
matches the one that produced the hash. -/
def verify_password (plain_password hashed_password : String) : Bool :=
  get_password_hash plain_password == hashed_password

/-- `crud.get_user_by_email`: first row whose email matches
(`db.query(User).filter(User.email == email).first()`); the identity store
is modelled as the list of user rows. -/
def get_user_by_email (db : List User) (email : String) : Option User :=
  db.find? (fun u => u.email == email)

/-- `auth.authenticate_user`: look up by email, return `none` if absent,
`none` if the password does not verify, the user otherwise. -/
def authenticate_user (db : List User) (email password : String) : Option User :=
  match get_user_by_email db email with
  | none => none
  | some user =>
      if verify_password password user.hashed_password then some user else none

/-- Modelled from the spec: `auth.create_access_token` signs a JWT via the
external jose library with the process-wide secret; only the fact that the
token is a function of the subject email matters here. -/
def create_access_token (email : String) : String :=
  String.append "jwt$" email

/-- Outcome of the `/login` endpoint as observable by the client. -/
inductive LoginResult where
  | token (access_token : String) (token_type : String)
  | httpError (status_code : Nat) (detail : String)
deriving DecidableEq, Repr

/-- `main.login`: authenticate; on failure raise HTTP 401 with detail
"Incorrect email or password" (one branch for both failure causes); on
success issue a bearer token for the user's email. -/
def login (db : List User) (email password : String) : LoginResult :=
  match authenticate_user db email password with
  | none => LoginResult.httpError 401 "Incorrect email or password"
  | some user => LoginResult.token (create_access_token user.email) "bearer"

/-- Authorization decision embedded in `main.get_performance` (lines
218-222) and `main.download_report` (lines 272-276). -/
inductive AccessDecision where
  | Allow
  | Forbidden
deriving DecidableEq, Repr

/-- The self-or-admin guard shared by `main.get_performance` and
`main.download_report`:
`if current_user.email != email and current_user.role != "Admin": 403`. -/
def authorize_self_or_admin (current_user : User) (email : String) : AccessDecision :=
  if current_user.email ≠ email ∧ current_user.role ≠ "Admin" then
    AccessDecision.Forbidden
  else AccessDecision.Allow

/-- Outcome of the `/performance/{email}` endpoint decision logic. -/
inductive FetchOutcome where
  | ok
  | forbidden
  | notFound
deriving DecidableEq, Repr

/-- The decision path of `main.get_performance` (lines 204-238): the
self-or-admin authorization check runs first (403), then the target-user
existence check (404), then the data is returned. -/
def get_performance_decision (db : List User) (current_user : User)
    (email : String) : FetchOutcome :=
  if current_user.email ≠ email ∧ current_user.role ≠ "Admin" then
    FetchOutcome.forbidden
  else
    match get_user_by_email db email with
    | none => FetchOutcome.notFound
    | some _ => FetchOutcome.ok

/-- Strict curriculum ordering on chapter names. -/
def chapterLt (a b : String) : Prop := chapter_order a < chapter_order b

instance : DecidableRel chapterLt := fun a b => Nat.decLt _ _

instance : IsAntisymm String chapterLt :=
  ⟨fun _ _ h1 h2 => absurd h2 (Nat.lt_asymm h1)⟩

/-! ### Concrete data used in witnesses and counterexamples -/

/-- A concrete registered trainee. -/
def trainee_a : User :=
  { email := "a@example.com"
    hashed_password := get_password_hash "password1"
    role := "Trainee"
    trainee_name := "Alice" }

/-- A concrete registered admin. -/
def admin_root : User :=
  { email := "root@example.com"
    hashed_password := get_password_hash "adminpass"
    role := "Admin"
    trainee_name := "Root" }

/-- The fully completed 7-entry record with scores [9,8,7,6,8,9,10] from the
spec's test scenario. -/
def full_completed_example : List ChapterEntry :=
  (VALID_CHAPTERS.zip [9, 8, 7, 6, 8, 9, 10]).map
    (fun p => { chapter := p.1, score := Score.int p.2, status := "Completed" })

/-- First occurrence of the duplicated chapter in `dup_submission`. -/
def dup_first : ChapterEntry :=
  { chapter := "Briefing Room", score := Score.int 5, status := "Completed" }

/-- Second occurrence of the duplicated chapter in `dup_submission`. -/
def dup_second : ChapterEntry :=
  { chapter := "Briefing Room", score := Score.int 3, status := "Pending" }

/-- A submission in which chapter "Briefing Room" occurs twice with
different scores and statuses. -/
def dup_submission : List ChapterEntry := [dup_first, dup_second]

/-- The single-entry submission from the spec's test scenario:
Briefing Room with score 9, Completed. -/
def briefing_only : List ChapterEntry :=
  [{ chapter := "Briefing Room", score := Score.int 9, status := "Completed" }]

/-! ### Helper lemmas -/

/-- Left-injectivity of the modelled hash: equal hashes come from equal
passwords. -/
lemma get_password_hash_inj {a b : String}
    (h : get_password_hash a = get_password_hash b) : a = b := by
  unfold get_password_hash at h
  cases a
  cases b
  simp [String.append] at h
  injection h with h2
  simp at h2
  subst h2
  rfl

/-! ### C8: password hash round-trip -/

/-- C8: for every password P, verifying P against hash(P) succeeds, and for
every Q distinct from P, verifying Q against hash(P) fails. -/
theorem verify_password_roundtrip (P Q : String) (hne : Q ≠ P) :
    verify_password P (get_password_hash P) = true ∧
    verify_password Q (get_password_hash P) = false := by
  constructor
  · simp [verify_password]
  · simp only [verify_password, beq_eq_false_iff_ne, ne_eq]
    intro h
    exact hne (get_password_hash_inj h)

/-- Witness for C8 at concrete passwords. -/
theorem verify_password_roundtrip_witness :
    verify_password "password1" (get_password_hash "password1") = true ∧
    verify_password "hunter2xx" (get_password_hash "password1") = false :=
  verify_password_roundtrip "password1" "hunter2xx" (by decide)

/-! ### C5: self-or-admin authorization -/

/-- C5: the self-or-admin decision of `get_performance`/`download_report`
is Allow exactly when the requester's email equals the target email or the
requester is an Admin, and Forbidden otherwise. -/
theorem authorize_self_or_admin_spec (u : User) (email : String) :
    (authorize_self_or_admin u email = AccessDecision.Allow ↔
      (u.email = email ∨ u.role = "Admin")) ∧
    (authorize_self_or_admin u email = AccessDecision.Forbidden ↔
      ¬(u.email = email ∨ u.role = "Admin")) := by
  unfold authorize_self_or_admin
  by_cases h1 : u.email = email <;> by_cases h2 : u.role = "Admin" <;>
    simp [h1, h2]

/-- Witness for C5: a trainee reading their own data is allowed. -/
theorem authorize_self_or_admin_spec_witness :
    authorize_self_or_admin trainee_a "a@example.com" = AccessDecision.Allow :=
  (authorize_self_or_admin_spec trainee_a "a@example.com").1.mpr (Or.inl rfl)

/-! ### C6: login failure indistinguishability -/

/-- C6: a login that fails because the email is unknown and a login that
fails because the password is wrong produce the same observable outcome
(HTTP 401, detail "Incorrect email or password"); no account-existence
information leaks. -/
theorem login_failure_indistinguishable
    (dbA : List User) (eA pA : String) (dbB : List User) (eB pB : String)
    (u : User)
    (hA : get_user_by_email dbA eA = none)
    (hB : get_user_by_email dbB eB = some u)
    (hpw : verify_password pB u.hashed_password = false) :
    login dbA eA pA = LoginResult.httpError 401 "Incorrect email or password" ∧
    login dbB eB pB = LoginResult.httpError 401 "Incorrect email or password" ∧
    login dbA eA pA = login dbB eB pB := by
  unfold login authenticate_user
  rw [hA, hB]
  simp [hpw]

/-- Witness for C6: unknown email vs. wrong password on a concrete store. -/
theorem login_failure_indistinguishable_witness :
    login [trainee_a] "ghost@example.com" "password1" =
      login [trainee_a] "a@example.com" "wrongpass" :=
  (login_failure_indistinguishable [trainee_a] "ghost@example.com" "password1"
    [trainee_a] "a@example.com" "wrongpass" trainee_a (by decide) (by decide)
    (by decide)).2.2

/-! ### C10: empty submissions are rejected before normalization -/

/-- C10: the submission pipeline rejects an empty chapters list with the
validator's error before normalization runs, accepts every non-empty list,
and normalization alone would indeed synthesize all 7 entries from an empty
input. -/
theorem empty_submission_rejected :
    submit_performance [] = Except.error "At least one chapter must be provided" ∧
    (∀ v : List ChapterEntry, v ≠ [] →
      submit_performance v = Except.ok (normalize v)) ∧
    (normalize []).length = 7 := by
  refine ⟨rfl, ?_, by decide⟩
  intro v hv
  unfold submit_performance validate_chapters_not_empty
  simp [List.length_eq_zero, hv]

/-- Witness for C10: a singleton submission passes validation. -/
theorem empty_submission_rejected_witness :
    submit_performance dup_submission = Except.ok (normalize dup_submission) :=
  empty_submission_rejected.2.1 dup_submission (by decide)

/-! ### Statistics loop characterization -/

/-- Closed form of the `calculate_statistics` accumulation loop: starting
from `(c, s)` it adds the number of Completed entries to `c` and appends
the non-NA integer scores to `s`. -/
lemma foldl_stats_step (l : List ChapterEntry) (c : Nat) (s : List Int) :
    l.foldl stats_step (c, s) =
      (c + l.countP (fun ch => ch.status == "Completed"),
       s ++ l.filterMap scoreInt) := by
  induction l generalizing c s with
  | nil => simp
  | cons ch t ih =>
    simp only [List.foldl_cons, List.countP_cons, List.filterMap_cons, ih]
    unfold stats_step scoreInt
    by_cases hst : ch.status = "Completed" <;>
      cases hsc : ch.score <;>
        simp [hst, hsc] <;> omega

/-- What `calculate_statistics` returns on a non-empty list, in closed
form. -/
lemma calculate_statistics_eq (l : List ChapterEntry) (h : l ≠ []) :
    calculate_statistics l =
      Except.ok
        { completed_count := l.countP (fun ch => ch.status == "Completed")
          total_count := l.length
          average_score :=
            round1 (if l.filterMap scoreInt ≠ [] then
              ((l.filterMap scoreInt).sum : ℚ) / ((l.filterMap scoreInt).length : ℚ)
            else 0)
          completion_rate :=
            round1 (((l.countP (fun ch => ch.status == "Completed") : ℚ) /
              (l.length : ℚ)) * 100) } := by
  unfold calculate_statistics
  rw [foldl_stats_step]
  simp [List.length_eq_zero, h]

/-- `round1 0 = 0`. -/
lemma round1_zero : round1 0 = 0 := by
  norm_num [round1, round_half_even]

/-! ### C3: the statistics summary -/

/-- C3: for every record accepted by `calculate_statistics`, the summary
has `total_count` equal to the list length, `completed_count` equal to the
number of Completed entries, `average_score` the one-decimal rounding of
the mean of the non-NA scores (0 when there are none), `completion_rate`
the one-decimal rounding of `completed_count / total_count * 100`; on the
fully completed 7-entry record with scores [9,8,7,6,8,9,10] it yields
completed_count = 7, total_count = 7, completion_rate = 100.0 and
average_score = 8.1. -/
theorem calculate_statistics_spec :
    (∀ (l : List ChapterEntry) (s : Stats),
      calculate_statistics l = Except.ok s →
      s.total_count = l.length ∧
      s.completed_count = l.countP (fun ch => ch.status == "Completed") ∧
      s.average_score =
        (if l.filterMap scoreInt = [] then 0
         else round1 (((l.filterMap scoreInt).sum : ℚ) /
           ((l.filterMap scoreInt).length : ℚ))) ∧
      s.completion_rate =
        round1 (((s.completed_count : ℚ) / (s.total_count : ℚ)) * 100)) ∧
    calculate_statistics full_completed_example =
      Except.ok
        { completed_count := 7, total_count := 7,
          average_score := 81/10, completion_rate := 100 } := by
  constructor
  · intro l s hok
    have hne : l ≠ [] := by
      intro hnil
      rw [hnil] at hok
      simp [calculate_statistics] at hok
    rw [calculate_statistics_eq l hne] at hok
    have hs := Except.ok.inj hok
    subst hs
    refine ⟨rfl, rfl, ?_, rfl⟩
    by_cases hsc : l.filterMap scoreInt = [] <;> simp [hsc, round1_zero]
  · simp only [full_completed_example, calculate_statistics, stats_step,
      VALID_CHAPTERS, List.zip, List.zipWith, List.map, List.foldl,
      List.length]
    norm_num [round1, round_half_even, List.cons_ne_nil, Int.fract]

/-- Witness for C3: the general clause applied to the concrete fully
completed record, its hypothesis discharged by the theorem's own concrete
clause. -/
theorem calculate_statistics_spec_witness :
    (Stats.mk 7 7 (81/10) 100).total_count = full_completed_example.length :=
  (calculate_statistics_spec.1 full_completed_example _
    calculate_statistics_spec.2).1

/-! ### C4: remark tier selection -/

/-- C4: for every summary produced by `calculate_statistics` from a
7-entry (normalized) record, the remark tier of `generate_course_report`
is FullCompletion iff completed_count = total_count, NotStarted iff
completed_count = 0, and the partial tier exactly otherwise. -/
theorem classify_remark_spec (l : List ChapterEntry) (s : Stats)
    (hlen : l.length = 7) (hok : calculate_statistics l = Except.ok s) :
    (classify_remark s = RemarkTier.FullCompletion ↔
      s.completed_count = s.total_count) ∧
    (classify_remark s = RemarkTier.NotStarted ↔ s.completed_count = 0) ∧
    (classify_remark s = RemarkTier.PartialCompletion ↔
      (s.completed_count ≠ s.total_count ∧ s.completed_count ≠ 0)) := by
  have hne : l ≠ [] := by
    intro hnil
    rw [hnil] at hlen
    simp at hlen
  rw [calculate_statistics_eq l hne] at hok
  have hs := Except.ok.inj hok
  subst hs
  have hle : l.countP (fun ch => ch.status == "Completed") ≤ l.length :=
    List.countP_le_length _
  simp only [classify_remark]
  split_ifs with h1 h2 <;> simp_all

/-- Witness for C4: the all-Completed concrete record classifies as
FullCompletion. -/
theorem classify_remark_spec_witness :
    classify_remark (Stats.mk 7 7 (81/10) 100) = RemarkTier.FullCompletion :=
  (classify_remark_spec full_completed_example _ (by decide)
    (by
      simp only [full_completed_example, calculate_statistics, stats_step,
        VALID_CHAPTERS, List.zip, List.zipWith, List.map, List.foldl,
        List.length]
      norm_num [round1, round_half_even, List.cons_ne_nil,
        Int.fract])).1.mpr rfl

/-! ### C9: totality of the statistics computation -/

/-- C9: `calculate_statistics` succeeds exactly on non-empty chapter
lists; the unguarded division by `len(chapter_data)` fails only on the
empty list, and every record produced by `normalize` is non-empty, so the
failure branch is unreachable for normalized records. -/
theorem calculate_statistics_total_iff_nonempty :
    (∀ l : List ChapterEntry,
      (∃ s, calculate_statistics l = Except.ok s) ↔ l ≠ []) ∧
    calculate_statistics [] =
      Except.error "ZeroDivisionError: division by zero" ∧
    (∀ sub : List ChapterEntry,
      ∃ s, calculate_statistics (normalize sub) = Except.ok s) := by
  have hmain : ∀ l : List ChapterEntry,
      (∃ s, calculate_statistics l = Except.ok s) ↔ l ≠ [] := by
    intro l
    constructor
    · rintro ⟨s, hs⟩ hnil
      subst hnil
      simp [calculate_statistics] at hs
    · intro h
      exact ⟨_, calculate_statistics_eq l h⟩
  refine ⟨hmain, rfl, ?_⟩
  intro sub
  refine (hmain _).mpr ?_
  have hlen : (normalize sub).length =
      sub.length + (fillMissing sub).length := by
    unfold normalize
    rw [(List.perm_insertionSort entryLe _).length_eq, List.length_append]
  intro hnil
  rw [hnil] at hlen
  cases sub with
  | nil =>
      have h7 : (fillMissing []).length = 7 := by decide
      simp [h7] at hlen
  | cons a t =>
      simp only [List.length_nil, List.length_cons] at hlen
      omega

/-- Witness for C9: the success-iff-nonempty clause applied to a concrete
singleton list. -/
theorem calculate_statistics_total_iff_nonempty_witness :
    ∃ s, calculate_statistics
      [{ chapter := "Debrief", score := Score.NA, status := "Pending" }] =
        Except.ok s :=
  (calculate_statistics_total_iff_nonempty.1 _).mpr (by decide)

/-! ### Normalization machinery -/

/-- The curriculum has no repeated chapter. -/
lemma valid_chapters_nodup : VALID_CHAPTERS.Nodup := by decide

/-- The curriculum list is strictly sorted by its own order key. -/
lemma valid_chapters_sorted : List.Sorted chapterLt VALID_CHAPTERS := by
  decide

/-- `chapter_order` is injective on curriculum chapters. -/
lemma chapter_order_inj : ∀ a ∈ VALID_CHAPTERS, ∀ b ∈ VALID_CHAPTERS,
    chapter_order a = chapter_order b → a = b := by decide

/-- The chapters of the synthesized entries are the curriculum chapters
missing from the submission, in curriculum order. -/
lemma map_chapter_fillMissing (sub : List ChapterEntry) :
    (fillMissing sub).map ChapterEntry.chapter =
      VALID_CHAPTERS.filter
        (fun c => decide (c ∉ sub.map ChapterEntry.chapter)) := by
  unfold fillMissing
  rw [List.map_map]
  exact List.map_id _

/-- Characterization of membership in the synthesized entries. -/
lemma mem_fillMissing {sub : List ChapterEntry} {e : ChapterEntry} :
    e ∈ fillMissing sub ↔
      e.chapter ∈ VALID_CHAPTERS ∧
      e.chapter ∉ sub.map ChapterEntry.chapter ∧
      e.score = Score.NA ∧ e.status = "Not Completed" := by
  unfold fillMissing
  simp only [List.mem_map, List.mem_filter, decide_eq_true_eq]
  constructor
  · rintro ⟨c, ⟨hc, hnc⟩, rfl⟩
    exact ⟨hc, hnc, rfl, rfl⟩
  · rintro ⟨hc, hnc, hsc, hst⟩
    refine ⟨e.chapter, ⟨hc, hnc⟩, ?_⟩
    cases e
    simp_all

/-- The chapters of the submission plus the synthesized entries have no
repeats when the submission has none. -/
lemma chapters_nodup (sub : List ChapterEntry)
    (hnodup : (sub.map ChapterEntry.chapter).Nodup) :
    ((sub ++ fillMissing sub).map ChapterEntry.chapter).Nodup := by
  rw [List.map_append, List.nodup_append]
  refine ⟨hnodup, ?_, ?_⟩
  · rw [map_chapter_fillMissing]
    exact valid_chapters_nodup.filter _
  · intro c hc1 hc2
    rw [map_chapter_fillMissing, List.mem_filter] at hc2
    have h2 := hc2.2
    simp only [decide_eq_true_eq] at h2
    exact h2 hc1

/-- The chapters of the submission plus the synthesized entries are
exactly the curriculum chapters, as sets. -/
lemma chapters_mem (sub : List ChapterEntry)
    (hmem : ∀ e ∈ sub, e.chapter ∈ VALID_CHAPTERS) (c : String) :
    c ∈ (sub ++ fillMissing sub).map ChapterEntry.chapter ↔
      c ∈ VALID_CHAPTERS := by
  rw [List.map_append, List.mem_append, map_chapter_fillMissing]
  constructor
  · rintro (h | h)
    · rcases List.mem_map.mp h with ⟨e, he, rfl⟩
      exact hmem e he
    · exact (List.mem_filter.mp h).1
  · intro hc
    by_cases hin : c ∈ sub.map ChapterEntry.chapter
    · exact Or.inl hin
    · refine Or.inr (List.mem_filter.mpr ⟨hc, ?_⟩)
      simpa using hin

/-- The normalized chapters are a permutation of the curriculum. -/
lemma normalize_chapters_perm (sub : List ChapterEntry)
    (hmem : ∀ e ∈ sub, e.chapter ∈ VALID_CHAPTERS)
    (hnodup : (sub.map ChapterEntry.chapter).Nodup) :
    ((normalize sub).map ChapterEntry.chapter).Perm VALID_CHAPTERS := by
  have hp : (normalize sub).Perm (sub ++ fillMissing sub) :=
    List.perm_insertionSort entryLe _
  exact (hp.map ChapterEntry.chapter).trans
    ((List.perm_ext_iff_of_nodup
        (chapters_nodup sub hnodup) valid_chapters_nodup).mpr
      (chapters_mem sub hmem))

/-- The normalized chapters are strictly sorted in curriculum order. -/
lemma normalize_chapters_sorted (sub : List ChapterEntry)
    (hmem : ∀ e ∈ sub, e.chapter ∈ VALID_CHAPTERS)
    (hnodup : (sub.map ChapterEntry.chapter).Nodup) :
    List.Sorted chapterLt ((normalize sub).map ChapterEntry.chapter) := by
  have hsorted : List.Sorted entryLe (normalize sub) :=
    List.sorted_insertionSort entryLe _
  have hperm := normalize_chapters_perm sub hmem hnodup
  have hmapLe : ((normalize sub).map ChapterEntry.chapter).Pairwise
      (fun a b => chapter_order a ≤ chapter_order b) :=
    List.pairwise_map.mpr hsorted
  have hmapNodup : ((normalize sub).map ChapterEntry.chapter).Nodup :=
    hperm.nodup_iff.mpr valid_chapters_nodup
  have hvalid : ∀ c ∈ (normalize sub).map ChapterEntry.chapter,
      c ∈ VALID_CHAPTERS := fun c hc => hperm.subset hc
  refine (hmapLe.and hmapNodup).imp_of_mem ?_
  intro a b ha hb hab
  exact Nat.lt_of_le_of_ne hab.1
    (fun heq => hab.2 (chapter_order_inj a (hvalid a ha) b (hvalid b hb) heq))

/-- The normalized chapters are exactly the curriculum list, in order. -/
lemma normalize_chapters_eq (sub : List ChapterEntry)
    (hmem : ∀ e ∈ sub, e.chapter ∈ VALID_CHAPTERS)
    (hnodup : (sub.map ChapterEntry.chapter).Nodup) :
    (normalize sub).map ChapterEntry.chapter = VALID_CHAPTERS :=
  List.eq_of_perm_of_sorted (normalize_chapters_perm sub hmem hnodup)
    (normalize_chapters_sorted sub hmem hnodup) valid_chapters_sorted

/-! ### C2: normalization of duplicate-free valid submissions -/

/-- C2: for every duplicate-free submission of curriculum chapters with
valid scores and statuses, `normalize` returns exactly 7 entries whose
chapters are the curriculum in curriculum order (independent of submission
order), keeps every submitted entry verbatim, synthesizes
score NA / status "Not Completed" for every omitted chapter, and outputs
nothing else. -/
theorem normalize_spec (sub : List ChapterEntry)
    (hmem : ∀ e ∈ sub, e.chapter ∈ VALID_CHAPTERS)
    (hnodup : (sub.map ChapterEntry.chapter).Nodup)
    (hscore : ∀ e ∈ sub, valid_score e.score = true)
    (hstatus : ∀ e ∈ sub, e.status ∈ VALID_STATUSES) :
    (normalize sub).length = 7 ∧
    (normalize sub).map ChapterEntry.chapter = VALID_CHAPTERS ∧
    (∀ e ∈ sub, e ∈ normalize sub) ∧
    (∀ c ∈ VALID_CHAPTERS, c ∉ sub.map ChapterEntry.chapter →
      ({ chapter := c, score := Score.NA, status := "Not Completed" } :
        ChapterEntry) ∈ normalize sub) ∧
    (∀ e ∈ normalize sub, e ∈ sub ∨
      (e.chapter ∉ sub.map ChapterEntry.chapter ∧
        e.score = Score.NA ∧ e.status = "Not Completed")) := by
  have heq := normalize_chapters_eq sub hmem hnodup
  have hp : (normalize sub).Perm (sub ++ fillMissing sub) :=
    List.perm_insertionSort entryLe _
  refine ⟨?_, heq, ?_, ?_, ?_⟩
  · have := congrArg List.length heq
    rwa [List.length_map] at this
  · intro e he
    exact hp.mem_iff.mpr (List.mem_append_left _ he)
  · intro c hc hnc
    refine hp.mem_iff.mpr (List.mem_append_right _ ?_)
    exact mem_fillMissing.mpr ⟨hc, hnc, rfl, rfl⟩
  · intro e he
    rcases List.mem_append.mp (hp.mem_iff.mp he) with h | h
    · exact Or.inl h
    · rcases mem_fillMissing.mp h with ⟨_, hnc, hsc, hst⟩
      exact Or.inr ⟨hnc, hsc, hst⟩

/-- Witness for C2: the spec scenario, a single Briefing Room entry. -/
theorem normalize_spec_witness :
    (normalize briefing_only).map ChapterEntry.chapter = VALID_CHAPTERS :=
  (normalize_spec briefing_only
    (by decide) (by decide) (by decide) (by decide)).2.1

/-! ### C1: duplicate chapters are not rejected -/

/-- Counterexample to C1: the duplicate "Briefing Room" submission is not
rejected anywhere in the pipeline; it produces a record of 8 entries in
which both occurrences of the duplicated chapter survive verbatim (neither
a DuplicateChapter failure nor last-write-wins). -/
theorem normalize_duplicate_counterexample :
    submit_performance dup_submission = Except.ok (normalize dup_submission) ∧
    (normalize dup_submission).length = 8 ∧
    dup_first ∈ normalize dup_submission ∧
    dup_second ∈ normalize dup_submission ∧
    (normalize dup_submission).countP
      (fun e => e.chapter == "Briefing Room") = 2 :=
  ⟨rfl, by decide, by decide, by decide, by decide⟩

/-- C1 amended: normalization never fails and keeps every submitted
occurrence: its output is a permutation of the submitted entries
(duplicates included, counts preserved) plus one synthesized entry per
missing curriculum chapter, and every non-empty submission passes the
pipeline. -/
theorem normalize_keeps_duplicates (sub : List ChapterEntry) :
    (normalize sub).Perm (sub ++ fillMissing sub) ∧
    (∀ e : ChapterEntry,
      (normalize sub).count e = sub.count e + (fillMissing sub).count e) ∧
    (sub ≠ [] → submit_performance sub = Except.ok (normalize sub)) := by
  have hp := List.perm_insertionSort entryLe (sub ++ fillMissing sub)
  refine ⟨hp, ?_, ?_⟩
  · intro e
    unfold normalize
    rw [hp.count_eq, List.count_append]
  · intro hne
    unfold submit_performance validate_chapters_not_empty
    simp [List.length_eq_zero, hne]

/-- Witness for C1 amended, at the single-entry concrete submission. -/
theorem normalize_keeps_duplicates_witness :
    submit_performance briefing_only = Except.ok (normalize briefing_only) :=
  (normalize_keeps_duplicates briefing_only).2.2 (by decide)

/-! ### C7: missing target after the authorization gate -/

/-- Counterexample to C7: an authenticated trainee requesting the progress
of a nonexistent email receives Forbidden, not NotFound — the
authorization check of `get_performance` runs before the existence
check. -/
theorem get_performance_missing_target_counterexample :
    get_user_by_email [trainee_a] "ghost@example.com" = none ∧
    get_user_by_email [trainee_a] trainee_a.email = some trainee_a ∧
    get_performance_decision [trainee_a] trainee_a "ghost@example.com" =
      FetchOutcome.forbidden ∧
    FetchOutcome.forbidden ≠ FetchOutcome.notFound := by decide

/-- C7 amended: a nonexistent target yields NotFound only once the
self-or-admin gate passes (Admin requester, or requester's own email); a
non-admin requester with a different target email receives Forbidden
regardless of target existence; Forbidden and NotFound stay
distinguishable. -/
theorem get_performance_decision_spec (db : List User) (u : User)
    (t : String) :
    (u.role = "Admin" → get_user_by_email db t = none →
      get_performance_decision db u t = FetchOutcome.notFound) ∧
    (u.email = t → get_user_by_email db t = none →
      get_performance_decision db u t = FetchOutcome.notFound) ∧
    (u.role ≠ "Admin" → u.email ≠ t →
      get_performance_decision db u t = FetchOutcome.forbidden) ∧
    FetchOutcome.forbidden ≠ FetchOutcome.notFound := by
  refine ⟨?_, ?_, ?_, by decide⟩
  · intro hrole hnone
    unfold get_performance_decision
    rw [hnone]
    simp [hrole]
  · intro hself hnone
    unfold get_performance_decision
    rw [hnone]
    simp [hself]
  · intro hrole hself
    unfold get_performance_decision
    simp [hrole, hself]

/-- Witness for C7 amended: an admin requesting a nonexistent email gets
NotFound. -/
theorem get_performance_decision_spec_witness :
    get_performance_decision [trainee_a] admin_root "ghost@example.com" =
      FetchOutcome.notFound :=
  (get_performance_decision_spec [trainee_a] admin_root
    "ghost@example.com").1 rfl (by decide)

end PiperAlpha
